import Mathlib

/- Formal model of the Motorola Stingray sensors HAL (src/sensors/sensors.c).
   The uint32 bit masks of the source are modelled as natural numbers, raw
   input-event values as integers, and converted sensor readings as rationals
   standing for the float arithmetic of the source (which is exact for the
   fixed conversion factors involved).  Device interaction in the control
   path is modelled by an oracle saying which opens and ioctls succeed,
   together with a trace of the device operations a call issues. -/

set_option maxHeartbeats 1600000

namespace StingraySensors

/- Constants from sensors.c and the headers it includes (linux input codes,
   Android sensors.h values). -/

def MAX_NUM_SENSORS : ℕ := 6

def SUPPORTED_SENSORS : ℕ := 2 ^ MAX_NUM_SENSORS - 1

def ID_A : ℕ := 0

def ID_M : ℕ := 1

def ID_O : ℕ := 2

def ID_T : ℕ := 3

def ID_P : ℕ := 4

def ID_L : ℕ := 5

def SENSORS_ACCELERATION : ℕ := 1

def SENSORS_MAGNETIC_FIELD : ℕ := 2

def SENSORS_ORIENTATION : ℕ := 4

def SENSORS_TEMPERATURE : ℕ := 8

def SENSORS_PROXIMITY : ℕ := 16

def SENSORS_LIGHT : ℕ := 32

def SENSORS_HANDLE_BASE : ℤ := 0

def EV_SYN : ℕ := 0

def EV_ABS : ℕ := 3

def EV_LED : ℕ := 17

def SYN_CONFIG : ℕ := 1

def EVENT_TYPE_ACCEL_X : ℕ := 0

def EVENT_TYPE_ACCEL_Y : ℕ := 1

def EVENT_TYPE_ACCEL_Z : ℕ := 2

def EVENT_TYPE_ACCEL_STATUS : ℕ := 8

def EVENT_TYPE_YAW : ℕ := 3

def EVENT_TYPE_PITCH : ℕ := 4

def EVENT_TYPE_ROLL : ℕ := 5

def EVENT_TYPE_ORIENT_STATUS : ℕ := 7

def EVENT_TYPE_MAGV_X : ℕ := 16

def EVENT_TYPE_MAGV_Y : ℕ := 17

def EVENT_TYPE_MAGV_Z : ℕ := 10

def EVENT_TYPE_TEMPERATURE : ℕ := 6

def EVENT_TYPE_PROXIMITY : ℕ := 25

def EVENT_TYPE_LIGHT : ℕ := 8

def SENSOR_STATUS_ACCURACY_HIGH : ℕ := 3

def SENSOR_STATE_MASK : ℕ := 0x7FFF

def GRAVITY_EARTH : ℚ := 980665 / 100000

def LSG : ℚ := 1000

def CONVERT_A : ℚ := GRAVITY_EARTH / LSG

def CONVERT_M : ℚ := 1 / 16

def CONVERT_O : ℚ := 1 / 64

def CONVERT_P : ℚ := 1 / 5

def PROXIMITY_THRESHOLD_CM : ℚ := 6

/-- The all-ones uint32, used to model bitwise complement on uint32. -/
def M32 : ℕ := 2 ^ 32 - 1

/-- A raw linux input_event record as read from a device. -/
structure InputEvent where
  type : ℕ
  code : ℕ
  value : ℤ
  timeSec : ℤ
  timeUsec : ℤ
deriving DecidableEq

/-- One slot of the sensors_data_t array.  The payload union is laid out as
three rational fields x, y, z (orientation azimuth/pitch/roll alias x/y/z,
the scalar temperature/distance/light channels alias x), a status byte and a
nanosecond timestamp; sensor is the identity tag set on delivery. -/
structure Sample where
  sensor : ℕ
  x : ℚ
  y : ℚ
  z : ℚ
  status : ℕ
  time : ℤ
deriving DecidableEq

/-- State of the data (consumption) context: per-sensor samples plus the
pendingSensors mask. -/
structure DataState where
  sensors : Fin 6 → Sample
  pending : ℕ

/-- Point update of the per-sensor array (assignment dev->sensors[i] = v). -/
def setS (s : Fin 6 → Sample) (i : Fin 6) (v : Sample) : Fin 6 → Sample :=
  fun j => if j = i then v else s j

/-- The EV_ABS / EV_LED switch of data__poll: one raw event updates one field
of one sample (with unit conversion) and records the touched sensor in the
new_sensors accumulator; calibration-status events update only the
orientation status byte; unknown codes are ignored. -/
def processEvent (s : Fin 6 → Sample) (touched : ℕ) (e : InputEvent) :
    (Fin 6 → Sample) × ℕ :=
  match e.type with
  | 3 =>   -- EV_ABS
    match e.code with
    | 0 =>   -- EVENT_TYPE_ACCEL_X (ABS_X)
      (setS s 0 { s 0 with x := (e.value : ℚ) * CONVERT_A }, touched ||| SENSORS_ACCELERATION)
    | 1 =>   -- EVENT_TYPE_ACCEL_Y (ABS_Y)
      (setS s 0 { s 0 with y := (e.value : ℚ) * CONVERT_A }, touched ||| SENSORS_ACCELERATION)
    | 2 =>   -- EVENT_TYPE_ACCEL_Z (ABS_Z)
      (setS s 0 { s 0 with z := (e.value : ℚ) * CONVERT_A }, touched ||| SENSORS_ACCELERATION)
    | 16 =>  -- EVENT_TYPE_MAGV_X (ABS_HAT0X)
      (setS s 1 { s 1 with x := (e.value : ℚ) * CONVERT_M }, touched ||| SENSORS_MAGNETIC_FIELD)
    | 17 =>  -- EVENT_TYPE_MAGV_Y (ABS_HAT0Y)
      (setS s 1 { s 1 with y := (e.value : ℚ) * (-CONVERT_M) }, touched ||| SENSORS_MAGNETIC_FIELD)
    | 10 =>  -- EVENT_TYPE_MAGV_Z (ABS_BRAKE)
      (setS s 1 { s 1 with z := (e.value : ℚ) * (-CONVERT_M) }, touched ||| SENSORS_MAGNETIC_FIELD)
    | 3 =>   -- EVENT_TYPE_YAW (ABS_RX)
      (setS s 2 { s 2 with x := (e.value : ℚ) * CONVERT_O }, touched ||| SENSORS_ORIENTATION)
    | 4 =>   -- EVENT_TYPE_PITCH (ABS_RY)
      (setS s 2 { s 2 with y := (e.value : ℚ) * CONVERT_O }, touched ||| SENSORS_ORIENTATION)
    | 5 =>   -- EVENT_TYPE_ROLL (ABS_RZ)
      (setS s 2 { s 2 with z := (e.value : ℚ) * (-CONVERT_O) }, touched ||| SENSORS_ORIENTATION)
    | 6 =>   -- EVENT_TYPE_TEMPERATURE (ABS_THROTTLE)
      (setS s 3 { s 3 with x := (e.value : ℚ) }, touched ||| SENSORS_TEMPERATURE)
    | 8 =>   -- EVENT_TYPE_ACCEL_STATUS (ABS_WHEEL): accuracy, never returned
      (s, touched)
    | 7 =>   -- EVENT_TYPE_ORIENT_STATUS (ABS_RUDDER): value & SENSOR_STATE_MASK, then uint8 cast
      (setS s 2 { s 2 with status := ((e.value).emod 32768).toNat % 256 }, touched)
    | 25 =>  -- EVENT_TYPE_PROXIMITY (ABS_DISTANCE): binary quantization at the threshold
      (setS s 4 { s 4 with
          x := if (e.value : ℚ) * CONVERT_P ≤ PROXIMITY_THRESHOLD_CM then 0
               else PROXIMITY_THRESHOLD_CM },
       touched ||| SENSORS_PROXIMITY)
    | _ => (s, touched)
  | 17 =>  -- EV_LED
    match e.code with
    | 8 =>   -- EVENT_TYPE_LIGHT (LED_MISC)
      (setS s 5 { s 5 with x := (e.value : ℚ) }, touched ||| SENSORS_LIGHT)
    | _ => (s, touched)
  | _ => (s, touched)

/-- Folding the data__poll event switch over a list of raw events. -/
def runEvents (s : Fin 6 → Sample) (touched : ℕ) (evs : List InputEvent) :
    (Fin 6 → Sample) × ℕ :=
  evs.foldl (fun p e => processEvent p.1 p.2 e) (s, touched)

/-- The scanning loop of pick_sensor: the while loop walks mask =
SUPPORTED_SENSORS taking 31 - clz each round, i.e. it examines bits
5, 4, 3, 2, 1, 0 in that order and stops at the first pending one. -/
def pickIdx (pending : ℕ) : Option (Fin 6) :=
  if pending.testBit 5 then some 5
  else if pending.testBit 4 then some 4
  else if pending.testBit 3 then some 3
  else if pending.testBit 2 then some 2
  else if pending.testBit 1 then some 1
  else if pending.testBit 0 then some 0
  else none

/-- pick_sensor: return the highest-numbered pending sample, clear its
pending bit (pendingSensors &= the uint32 complement of 1 << i) and tag the
copied-out record with its identity bit. -/
def pick_sensor (st : DataState) : Option (Fin 6 × Sample × DataState) :=
  match pickIdx st.pending with
  | none => none
  | some i =>
    some (i, { st.sensors i with sensor := 2 ^ (i : ℕ) },
      { st with pending := st.pending &&& (M32 ^^^ 2 ^ (i : ℕ)) })

/-- Possible outcomes of data__poll: a read failure (-1), the 0x7FFFFFFF
SYN_CONFIG sentinel, a delivered sample, or the impossible pick miss. -/
inductive PollResult where
  | srcErr : PollResult
  | sentinel : PollResult
  | sample : Fin 6 → Sample → PollResult
  | noPick : PollResult
deriving DecidableEq

/-- The stamping loop at a synchronization boundary: every sensor whose bit
is in the touched mask gets the shared boundary timestamp. -/
def stamp (s : Fin 6 → Sample) (touched : ℕ) (t : ℤ) : Fin 6 → Sample :=
  fun i => if touched.testBit (i : ℕ) then { s i with time := t } else s i

/-- The read loop of data__poll over a (finite) stream of raw events: field
events accumulate, a SYN_CONFIG marker returns the sentinel, any other
synchronization event with a nonempty accumulator commits pendingSensors,
stamps every touched sample with the boundary time in nanoseconds and
delivers through pick_sensor; running out of input models a failed read. -/
def pollLoop (s : Fin 6 → Sample) (touched : ℕ) :
    List InputEvent → PollResult × DataState
  | [] => (.srcErr, ⟨s, 0⟩)
  | e :: rest =>
    if e.type = EV_SYN then
      if e.code = SYN_CONFIG then (.sentinel, ⟨s, 0⟩)
      else if touched ≠ 0 then
        let t := e.timeSec * 1000000000 + e.timeUsec * 1000
        match pick_sensor ⟨stamp s touched t, touched⟩ with
        | some (i, v, st3) => (.sample i v, st3)
        | none => (.noPick, ⟨stamp s touched t, touched⟩)
      else pollLoop s touched rest
    else
      let p := processEvent s touched e
      pollLoop p.1 p.2 rest

/-- data__poll: drain pendingSensors first, otherwise read raw events until
a boundary completes one or more samples. -/
def data__poll (st : DataState) (evs : List InputEvent) : PollResult × DataState :=
  if st.pending ≠ 0 then
    match pick_sensor st with
    | some (i, v, st2) => (.sample i v, st2)
    | none => (.noPick, st)
  else pollLoop st.sensors 0 evs

/-- data__data_open: zero all samples, give every sensor high vector
accuracy, clear pendingSensors. -/
def data__data_open : DataState :=
  ⟨fun _ => { sensor := 0, x := 0, y := 0, z := 0,
              status := SENSOR_STATUS_ACCURACY_HIGH, time := 0 }, 0⟩

/-- The (sensor, axis, converted value) a raw event writes, if any: the same
case split as processEvent, with status and unknown events mapped to none.
Proven consistent with processEvent below. -/
def evWrite (e : InputEvent) : Option (Fin 6 × Fin 3 × ℚ) :=
  match e.type with
  | 3 =>   -- EV_ABS
    match e.code with
    | 0 => some (0, 0, (e.value : ℚ) * CONVERT_A)
    | 1 => some (0, 1, (e.value : ℚ) * CONVERT_A)
    | 2 => some (0, 2, (e.value : ℚ) * CONVERT_A)
    | 16 => some (1, 0, (e.value : ℚ) * CONVERT_M)
    | 17 => some (1, 1, (e.value : ℚ) * (-CONVERT_M))
    | 10 => some (1, 2, (e.value : ℚ) * (-CONVERT_M))
    | 3 => some (2, 0, (e.value : ℚ) * CONVERT_O)
    | 4 => some (2, 1, (e.value : ℚ) * CONVERT_O)
    | 5 => some (2, 2, (e.value : ℚ) * (-CONVERT_O))
    | 6 => some (3, 0, (e.value : ℚ))
    | 8 => none
    | 7 => none
    | 25 =>
      some (4, 0, if (e.value : ℚ) * CONVERT_P ≤ PROXIMITY_THRESHOLD_CM then 0
                  else PROXIMITY_THRESHOLD_CM)
    | _ => none
  | 17 =>  -- EV_LED
    match e.code with
    | 8 => some (5, 0, (e.value : ℚ))
    | _ => none
  | _ => none

/-- Write one payload axis of a sample. -/
def axisSet (v : Sample) (a : Fin 3) (q : ℚ) : Sample :=
  if a = 0 then { v with x := q } else if a = 1 then { v with y := q } else { v with z := q }

/-- Read one payload axis of a sample. -/
def axisGet (s : Fin 6 → Sample) (i : Fin 6) (a : Fin 3) : ℚ :=
  if a = 0 then (s i).x else if a = 1 then (s i).y else (s i).z

/-- An event writes the given axis of the given sensor. -/
def writesAxis (e : InputEvent) (i : Fin 6) (a : Fin 3) : Prop :=
  ∃ q : ℚ, evWrite e = some (i, a, q)

/- Replication sink: the synthetic-event mirror of poll_thread. -/

/-- A synthetic raw event written to the uinput sink by send_event. -/
structure SynthEvent where
  type : ℕ
  code : ℕ
  value : ℤ
deriving DecidableEq

/-- The raw integer values held in filter_sensors (stored in float fields in
the source and passed back unchanged to send_event). -/
structure FilterState where
  ax : ℤ
  ay : ℤ
  az : ℤ
  mx : ℤ
  my : ℤ
  mz : ℤ
  yaw : ℤ
  pitch : ℤ
  roll : ℤ
  temp : ℤ
  dist : ℤ
  light : ℤ
deriving DecidableEq

/-- The EV_SYN terminator send_event(uinput, EV_SYN, 0, 0). -/
def synthSyn : SynthEvent := ⟨EV_SYN, 0, 0⟩

/-- One arm of the switch in the mirroring while loop of poll_thread.
The SENSORS_MAGNETIC_FIELD case of the source has no break and falls
through into the SENSORS_ORIENTATION case, so the magnetic group is
followed by an orientation group; acceleration is gated on the logical
active_sensors mask. -/
def emitGroup (active : ℕ) (f : FilterState) : ℕ → List SynthEvent
  | 0 =>
    if active &&& SENSORS_ACCELERATION ≠ 0 then
      [⟨EV_ABS, EVENT_TYPE_ACCEL_X, f.ax⟩, ⟨EV_ABS, EVENT_TYPE_ACCEL_Y, f.ay⟩,
       ⟨EV_ABS, EVENT_TYPE_ACCEL_Z, f.az⟩, synthSyn]
    else []
  | 1 =>
    [⟨EV_ABS, EVENT_TYPE_MAGV_X, f.mx⟩, ⟨EV_ABS, EVENT_TYPE_MAGV_Y, f.my⟩,
     ⟨EV_ABS, EVENT_TYPE_MAGV_Z, f.mz⟩, synthSyn,
     ⟨EV_ABS, EVENT_TYPE_YAW, f.yaw⟩, ⟨EV_ABS, EVENT_TYPE_PITCH, f.pitch⟩,
     ⟨EV_ABS, EVENT_TYPE_ROLL, f.roll⟩, synthSyn]
  | 2 =>
    [⟨EV_ABS, EVENT_TYPE_YAW, f.yaw⟩, ⟨EV_ABS, EVENT_TYPE_PITCH, f.pitch⟩,
     ⟨EV_ABS, EVENT_TYPE_ROLL, f.roll⟩, synthSyn]
  | 3 => [⟨EV_ABS, EVENT_TYPE_TEMPERATURE, f.temp⟩, synthSyn]
  | 4 => [⟨EV_ABS, EVENT_TYPE_PROXIMITY, f.dist⟩, synthSyn]
  | 5 => [⟨EV_LED, EVENT_TYPE_LIGHT, f.light⟩, synthSyn]
  | _ => []

/-- The while(new_sensors) loop at a synchronization boundary of
poll_thread: bits of the touched mask are consumed from the highest down
(31 - clz), each dispatching one switch arm. -/
def mirrorEpoch (active touched : ℕ) (f : FilterState) : List SynthEvent :=
  ([5, 4, 3, 2, 1, 0].filter (fun i => touched.testBit i)).flatMap (emitGroup active f)

/- Activation state machine (control__activate). -/

/-- The physical drivers of dDriverList that control__activate talks to. -/
inductive Drv where
  | lis : Drv
  | akm : Drv
  | sfh : Drv
deriving DecidableEq

/-- dDriverList masks: the accelerometer row covers acceleration, the
compass row covers magnetic, orientation and temperature.  ID_SFH = 2
indexes the max9635 row of dDriverList, whose mask is the light bit. -/
def drvMask : Drv → ℕ
  | .lis => SENSORS_ACCELERATION
  | .akm => SENSORS_MAGNETIC_FIELD ||| SENSORS_ORIENTATION ||| SENSORS_TEMPERATURE
  | .sfh => SENSORS_LIGHT

/-- State of the control context: the two masks plus which dev_fd entries
are currently open. -/
structure CtrlState where
  active_sensors : ℕ
  active_drivers : ℕ
  fdLis : Bool
  fdAkm : Bool
  fdSfh : Bool
deriving DecidableEq

def getFd (st : CtrlState) : Drv → Bool
  | .lis => st.fdLis
  | .akm => st.fdAkm
  | .sfh => st.fdSfh

def setFd (st : CtrlState) : Drv → Bool → CtrlState
  | .lis, b => { st with fdLis := b }
  | .akm, b => { st with fdAkm := b }
  | .sfh, b => { st with fdSfh := b }

/-- Outcome oracle for device operations: whether each open(2) succeeds and
whether the KXTF9_IOCTL_SET_ENABLE ioctl fails (with which positive errno).
The SFH7743 and AKM ioctls are commented out in the source, so only their
opens can fail. -/
structure DevOracle where
  lisOpenOk : Bool
  akmOpenOk : Bool
  sfhOpenOk : Bool
  kxtf9Errno : Option ℕ+
deriving DecidableEq

def openOk (o : DevOracle) : Drv → Bool
  | .lis => o.lisOpenOk
  | .akm => o.akmOpenOk
  | .sfh => o.sfhOpenOk

/-- Device operations recorded in the trace of a control__activate call. -/
inductive DevCmd where
  | openDev : Drv → DevCmd
  | closeDev : Drv → DevCmd
  | kxtf9SetEnable : ℕ → DevCmd
deriving DecidableEq

/-- open_dev: reuse an already-open fd, otherwise attempt open(2). -/
def open_dev (o : DevOracle) (st : CtrlState) (d : Drv) :
    Bool × CtrlState × List DevCmd :=
  if getFd st d then (true, st, [])
  else if openOk o d then (true, setFd st d true, [DevCmd.openDev d])
  else (false, st, [DevCmd.openDev d])

/-- close_dev: close the fd when it is open and no newly enabled sensor
needs this driver row. -/
def close_dev (st : CtrlState) (d : Drv) (enabled : ℕ) :
    CtrlState × List DevCmd :=
  if getFd st d ∧ enabled &&& drvMask d = 0 then
    (setFd st d false, [DevCmd.closeDev d])
  else (st, [])

/-- The outcome of issuing KXTF9_IOCTL_SET_ENABLE: on failure the source
overwrites err with -errno, on success err is left as it was. -/
def kxtf9Result (o : DevOracle) (err : ℤ) : ℤ :=
  match o.kxtf9Errno with
  | none => err
  | some e => -((e : ℕ) : ℤ)

/-- The SENSORS_ACCELERATION group of control__activate: open the KXTF9,
issue KXTF9_IOCTL_SET_ENABLE (err := -errno on failure), close-on-idle; on
open failure err := the failed fd (-1). -/
def accelBlock (o : DevOracle) (st : CtrlState) (changed new_enabled : ℕ)
    (err : ℤ) : ℤ × CtrlState × List DevCmd :=
  if changed &&& SENSORS_ACCELERATION ≠ 0 then
    let od := open_dev o st Drv.lis
    if od.1 then
      let flag : ℕ := if new_enabled &&& SENSORS_ACCELERATION ≠ 0 then 1 else 0
      let cd := close_dev od.2.1 Drv.lis new_enabled
      (kxtf9Result o err, cd.1, od.2.2 ++ [DevCmd.kxtf9SetEnable flag] ++ cd.2)
    else (-1, od.2.1, od.2.2)
  else (err, st, [])

/-- The SENSORS_PROXIMITY group: open the SFH fd and close-on-idle; the
SFH7743_IOCTL_SET_ENABLE call is commented out in the source, so no device
command is issued between them. -/
def sfhBlock (o : DevOracle) (st : CtrlState) (changed new_enabled : ℕ)
    (err : ℤ) : ℤ × CtrlState × List DevCmd :=
  if changed &&& SENSORS_PROXIMITY ≠ 0 then
    let od := open_dev o st Drv.sfh
    if od.1 then
      let cd := close_dev od.2.1 Drv.sfh new_enabled
      (err, cd.1, od.2.2 ++ cd.2)
    else (-1, od.2.1, od.2.2)
  else (err, st, [])

/-- The compass/orientation/temperature group: open the AKM fd (err := -1 on
failure); every ECS ioctl is commented out in the source; close_dev runs
after the if/else, so it runs in both cases. -/
def akmBlock (o : DevOracle) (st : CtrlState) (changed new_enabled : ℕ)
    (err : ℤ) : ℤ × CtrlState × List DevCmd :=
  if changed &&& (SENSORS_ORIENTATION ||| SENSORS_TEMPERATURE ||| SENSORS_MAGNETIC_FIELD) ≠ 0 then
    let od := open_dev o st Drv.akm
    let err2 : ℤ := if od.1 then err else -1
    let cd := close_dev od.2.1 Drv.akm new_enabled
    (err2, cd.1, od.2.2 ++ cd.2)
  else (err, st, [])

/-- new_active = (current_active with the handle bit set or cleared):
(current_active and the uint32 complement of 1 << handle) or
(enabled_mask and handle_mask). -/
def new_active_of (current_active : ℕ) (handle : ℤ) (enabled : Bool) : ℕ :=
  let handle_mask : ℕ := 2 ^ handle.toNat
  let enabled_mask : ℕ := if enabled then handle_mask else 0
  (current_active &&& (M32 ^^^ handle_mask)) ||| (enabled_mask &&& handle_mask)

/-- new_enabled = new_active, with the acceleration bit forced on when
orientation is requested (dependency rule). -/
def new_enabled_of (new_active : ℕ) : ℕ :=
  if new_active &&& SENSORS_ORIENTATION ≠ 0 then new_active ||| SENSORS_ACCELERATION
  else new_active

/-- Result of a control__activate call: the returned code, the mutated
context and the trace of device operations issued. -/
structure ActResult where
  ret : ℤ
  state : CtrlState
  trace : List DevCmd
deriving DecidableEq

/-- Body of control__activate after the handle check: run the three changed
driver groups in source order threading err, return the accumulated err when
negative (masks untouched, fd mutations kept), otherwise commit the two
masks and return 0. -/
def activateCore (o : DevOracle) (st : CtrlState) (new_active new_enabled : ℕ) :
    ActResult :=
  let changed := st.active_drivers ^^^ new_enabled
  if changed ≠ 0 then
    let a := accelBlock o st changed new_enabled 0
    let p := sfhBlock o a.2.1 changed new_enabled a.1
    let k := akmBlock o p.2.1 changed new_enabled p.1
    if k.1 < 0 then ⟨k.1, k.2.1, a.2.2 ++ p.2.2 ++ k.2.2⟩
    else ⟨0, { k.2.1 with active_sensors := new_active, active_drivers := new_enabled },
          a.2.2 ++ p.2.2 ++ k.2.2⟩
  else ⟨0, { st with active_sensors := new_active, active_drivers := new_enabled }, []⟩

/-- control__activate: reject handles outside the sensor range, then apply
the transition. -/
def control__activate (o : DevOracle) (st : CtrlState) (handle : ℤ)
    (enabled : Bool) : ActResult :=
  if handle < SENSORS_HANDLE_BASE ∨ SENSORS_HANDLE_BASE + (MAX_NUM_SENSORS : ℤ) ≤ handle then
    ⟨-1, st, []⟩
  else
    let new_active := new_active_of st.active_sensors handle enabled
    let new_enabled := new_enabled_of new_active
    activateCore o st new_active new_enabled

/-- Recognizer for the one live enable/disable device command. -/
def isKxtf9Cmd : DevCmd → Bool
  | .kxtf9SetEnable _ => true
  | _ => false

/-- A synthetic-event list holds an event of the given type and code. -/
def hasEv (l : List SynthEvent) (t c : ℕ) : Prop :=
  ∃ e ∈ l, e.type = t ∧ e.code = c

/- Concrete inputs used by the witnesses and counterexamples below. -/

/-- Fresh control context (as set up by open_sensors). -/
def ctrl0 : CtrlState := ⟨0, 0, false, false, false⟩

/-- Oracle on which every device operation succeeds. -/
def oracleAllOk : DevOracle := ⟨true, true, true, none⟩

/-- Oracle on which the KXTF9 open succeeds, the KXTF9 enable ioctl fails
with errno 5, and the AKM and SFH opens fail. -/
def oracleKxFailAkmFail : DevOracle := ⟨true, false, false, some 5⟩

/-- Distinct raw values for the mirror counterexample. -/
def filterDemo : FilterState := ⟨1, 2, 3, 4, 5, 6, 7, 8, 9, 10, 11, 12⟩

def evAccelX500 : InputEvent := ⟨EV_ABS, EVENT_TYPE_ACCEL_X, 500, 0, 0⟩

def evAccelX1000 : InputEvent := ⟨EV_ABS, EVENT_TYPE_ACCEL_X, 1000, 0, 0⟩

def evMagX32 : InputEvent := ⟨EV_ABS, EVENT_TYPE_MAGV_X, 32, 0, 0⟩

def evBoundary : InputEvent := ⟨EV_SYN, 0, 0, 1, 2⟩

def evOrientStatus9 : InputEvent := ⟨EV_ABS, EVENT_TYPE_ORIENT_STATUS, 9, 0, 0⟩

def evProx30 : InputEvent := ⟨EV_ABS, EVENT_TYPE_PROXIMITY, 30, 0, 0⟩

def evProx31 : InputEvent := ⟨EV_ABS, EVENT_TYPE_PROXIMITY, 31, 0, 0⟩

/- Helper lemmas about the data path. -/

lemma axisGet_setS_axisSet_self (s : Fin 6 → Sample) (i : Fin 6) (a : Fin 3) (q : ℚ) :
    axisGet (setS s i (axisSet (s i) a q)) i a = q := by
  fin_cases a <;> simp [axisGet, axisSet, setS]

lemma axisGet_setS_axisSet_frame (s : Fin 6 → Sample) (i : Fin 6) (a : Fin 3) (q : ℚ)
    (j : Fin 6) (b : Fin 3) (h : ¬(j = i ∧ b = a)) :
    axisGet (setS s i (axisSet (s i) a q)) j b = axisGet s j b := by
  by_cases hji : j = i
  · subst hji
    have hba : b ≠ a := fun hb => h ⟨rfl, hb⟩
    fin_cases a <;> fin_cases b <;>
      first
        | exact absurd rfl hba
        | simp [axisGet, axisSet, setS]
  · fin_cases b <;> simp [axisGet, setS, hji]

lemma setS_axisSet_aux_fields (s : Fin 6 → Sample) (i : Fin 6) (a : Fin 3) (q : ℚ)
    (j : Fin 6) :
    ((setS s i (axisSet (s i) a q)) j).time = (s j).time ∧
    ((setS s i (axisSet (s i) a q)) j).status = (s j).status ∧
    ((setS s i (axisSet (s i) a q)) j).sensor = (s j).sensor := by
  by_cases hji : j = i
  · subst hji; fin_cases a <;> simp [setS, axisSet]
  · simp [setS, hji]

lemma processEvent_of_write (s : Fin 6 → Sample) (tc : ℕ) (e : InputEvent)
    (i : Fin 6) (a : Fin 3) (q : ℚ) (h : evWrite e = some (i, a, q)) :
    processEvent s tc e = (setS s i (axisSet (s i) a q), tc ||| 2 ^ (i : ℕ)) := by
  unfold evWrite at h
  unfold processEvent
  split at h <;> (try split at h) <;>
    first
      | exact Option.noConfusion h
      | (simp only [Option.some.injEq, Prod.mk.injEq] at h
         obtain ⟨h1, h2, h3⟩ := h
         subst h1
         subst h2
         subst h3
         rfl)

lemma processEvent_of_none (s : Fin 6 → Sample) (tc : ℕ) (e : InputEvent)
    (h : evWrite e = none) :
    processEvent s tc e = (s, tc) ∨
    (e.type = EV_ABS ∧ e.code = EVENT_TYPE_ORIENT_STATUS ∧
      processEvent s tc e =
        (setS s 2 { s 2 with status := ((e.value).emod 32768).toNat % 256 }, tc)) := by
  unfold evWrite at h
  unfold processEvent
  split at h <;> (try split at h) <;>
    simp_all [EV_ABS, EVENT_TYPE_ORIENT_STATUS]

lemma axisGet_setS_record_status (s : Fin 6 → Sample) (n : ℕ) (j : Fin 6) (b : Fin 3) :
    axisGet (setS s 2 { s 2 with status := n }) j b = axisGet s j b := by
  by_cases hj : j = 2
  · subst hj; fin_cases b <;> simp [axisGet, setS]
  · fin_cases b <;> simp [axisGet, setS, hj]

lemma axisGet_processEvent_write (s : Fin 6 → Sample) (tc : ℕ) (e : InputEvent)
    (i : Fin 6) (a : Fin 3) (q : ℚ) (h : evWrite e = some (i, a, q)) :
    axisGet (processEvent s tc e).1 i a = q := by
  rw [processEvent_of_write s tc e i a q h]
  exact axisGet_setS_axisSet_self s i a q

lemma axisGet_processEvent_frame (s : Fin 6 → Sample) (tc : ℕ) (e : InputEvent)
    (j : Fin 6) (b : Fin 3) (hnw : ∀ q2 : ℚ, evWrite e ≠ some (j, b, q2)) :
    axisGet (processEvent s tc e).1 j b = axisGet s j b := by
  cases hev : evWrite e with
  | none =>
    rcases processEvent_of_none s tc e hev with h | ⟨_, _, h⟩
    · rw [h]
    · rw [h]
      exact axisGet_setS_record_status s _ j b
  | some t =>
    obtain ⟨i, a, q⟩ := t
    rw [processEvent_of_write s tc e i a q hev]
    refine axisGet_setS_axisSet_frame s i a q j b ?_
    rintro ⟨rfl, rfl⟩
    exact hnw q hev

lemma processEvent_time_sensor (s : Fin 6 → Sample) (tc : ℕ) (e : InputEvent) (j : Fin 6) :
    ((processEvent s tc e).1 j).time = (s j).time ∧
    ((processEvent s tc e).1 j).sensor = (s j).sensor := by
  cases hev : evWrite e with
  | none =>
    rcases processEvent_of_none s tc e hev with h | ⟨_, _, h⟩
    · rw [h]; exact ⟨rfl, rfl⟩
    · rw [h]
      by_cases hj : j = 2
      · subst hj; simp [setS]
      · simp [setS, hj]
  | some t =>
    obtain ⟨i, a, q⟩ := t
    rw [processEvent_of_write s tc e i a q hev]
    obtain ⟨h1, h2, h3⟩ := setS_axisSet_aux_fields s i a q j
    exact ⟨h1, h3⟩

lemma processEvent_touched_of_write (s : Fin 6 → Sample) (tc : ℕ) (e : InputEvent)
    (i : Fin 6) (a : Fin 3) (q : ℚ) (h : evWrite e = some (i, a, q)) :
    (processEvent s tc e).2 = tc ||| 2 ^ (i : ℕ) := by
  rw [processEvent_of_write s tc e i a q h]

lemma processEvent_touched_of_none (s : Fin 6 → Sample) (tc : ℕ) (e : InputEvent)
    (h : evWrite e = none) : (processEvent s tc e).2 = tc := by
  rcases processEvent_of_none s tc e h with h2 | ⟨_, _, h2⟩ <;> rw [h2]

lemma runEvents_nil (s : Fin 6 → Sample) (tc : ℕ) : runEvents s tc [] = (s, tc) := rfl

lemma runEvents_cons (s : Fin 6 → Sample) (tc : ℕ) (e : InputEvent) (l : List InputEvent) :
    runEvents s tc (e :: l) =
      runEvents (processEvent s tc e).1 (processEvent s tc e).2 l := rfl

lemma runEvents_append (s : Fin 6 → Sample) (tc : ℕ) (l1 l2 : List InputEvent) :
    runEvents s tc (l1 ++ l2) =
      runEvents (runEvents s tc l1).1 (runEvents s tc l1).2 l2 := by
  simp [runEvents, List.foldl_append]

lemma runEvents_axis_frame (j : Fin 6) (b : Fin 3) (l : List InputEvent)
    (h : ∀ e ∈ l, ∀ q : ℚ, evWrite e ≠ some (j, b, q)) (s : Fin 6 → Sample) (tc : ℕ) :
    axisGet (runEvents s tc l).1 j b = axisGet s j b := by
  induction l generalizing s tc with
  | nil => rfl
  | cons e l ih =>
    rw [runEvents_cons]
    rw [ih (fun e2 he2 => h e2 (List.mem_cons_of_mem e he2))]
    exact axisGet_processEvent_frame s tc e j b (h e (List.mem_cons_self e l))

lemma runEvents_last_write (l1 l2 : List InputEvent) (e : InputEvent)
    (i : Fin 6) (a : Fin 3) (q : ℚ) (hw : evWrite e = some (i, a, q))
    (h2 : ∀ e2 ∈ l2, ∀ q2 : ℚ, evWrite e2 ≠ some (i, a, q2)) (s : Fin 6 → Sample) (tc : ℕ) :
    axisGet (runEvents s tc (l1 ++ e :: l2)).1 i a = q := by
  rw [runEvents_append, runEvents_cons, runEvents_axis_frame i a l2 h2]
  exact axisGet_processEvent_write _ _ e i a q hw

lemma runEvents_time_sensor (l : List InputEvent) (s : Fin 6 → Sample) (tc : ℕ) (j : Fin 6) :
    ((runEvents s tc l).1 j).time = (s j).time ∧
    ((runEvents s tc l).1 j).sensor = (s j).sensor := by
  induction l generalizing s tc with
  | nil => exact ⟨rfl, rfl⟩
  | cons e l ih =>
    rw [runEvents_cons]
    obtain ⟨h1, h2⟩ := ih (processEvent s tc e).1 (processEvent s tc e).2
    obtain ⟨g1, g2⟩ := processEvent_time_sensor s tc e j
    exact ⟨h1.trans g1, h2.trans g2⟩

lemma or_two_pow_lt_64 : ∀ tc : ℕ, tc < 64 → ∀ i : Fin 6, tc ||| 2 ^ (i : ℕ) < 64 := by decide

lemma processEvent_touched_lt (s : Fin 6 → Sample) (tc : ℕ) (e : InputEvent)
    (h64 : tc < 64) : (processEvent s tc e).2 < 64 := by
  cases hev : evWrite e with
  | none => rw [processEvent_touched_of_none s tc e hev]; exact h64
  | some t =>
    obtain ⟨i, a, q⟩ := t
    rw [processEvent_touched_of_write s tc e i a q hev]
    exact or_two_pow_lt_64 tc h64 i

lemma runEvents_touched_lt (l : List InputEvent) (s : Fin 6 → Sample) (tc : ℕ)
    (h64 : tc < 64) : (runEvents s tc l).2 < 64 := by
  induction l generalizing s tc with
  | nil => exact h64
  | cons e l ih =>
    rw [runEvents_cons]
    exact ih _ _ (processEvent_touched_lt s tc e h64)

lemma pollLoop_append (evs rest : List InputEvent)
    (h : ∀ e ∈ evs, e.type ≠ EV_SYN) (s : Fin 6 → Sample) (tc : ℕ) :
    pollLoop s tc (evs ++ rest) =
      pollLoop (runEvents s tc evs).1 (runEvents s tc evs).2 rest := by
  induction evs generalizing s tc with
  | nil => rfl
  | cons e l ih =>
    have ht : ¬(e.type = EV_SYN) := h e (List.mem_cons_self e l)
    rw [List.cons_append]
    rw [show pollLoop s tc (e :: (l ++ rest)) =
        pollLoop (processEvent s tc e).1 (processEvent s tc e).2 (l ++ rest) by
      simp [pollLoop, ht]]
    rw [runEvents_cons]
    exact ih (fun e2 he2 => h e2 (List.mem_cons_of_mem e he2)) _ _

lemma pickIdx_spec : ∀ p : ℕ, p < 64 → p ≠ 0 → ∃ i : Fin 6, pickIdx p = some i ∧
    p.testBit (i : ℕ) = true ∧ ∀ j : ℕ, j < 6 → p.testBit j = true → j ≤ (i : ℕ) := by
  decide

lemma clear_bit_spec : ∀ p : ℕ, p < 64 → ∀ i : Fin 6,
    (p &&& (M32 ^^^ 2 ^ (i : ℕ))) < 64 ∧
    ∀ j : ℕ, j < 6 →
      (p &&& (M32 ^^^ 2 ^ (i : ℕ))).testBit j = (p.testBit j && !(j == (i : ℕ))) := by
  decide

lemma testBit_high_false (p : ℕ) (h64 : p < 64) (j : ℕ) (hj : 6 ≤ j) :
    p.testBit j = false := by
  apply Nat.testBit_lt_two_pow
  calc p < 64 := h64
    _ = 2 ^ 6 := rfl
    _ ≤ 2 ^ j := Nat.pow_le_pow_right (by norm_num) hj

lemma pick_sensor_eq (st : DataState) (i : Fin 6) (h : pickIdx st.pending = some i) :
    pick_sensor st = some (i, { st.sensors i with sensor := 2 ^ (i : ℕ) },
      { st with pending := st.pending &&& (M32 ^^^ 2 ^ (i : ℕ)) }) := by
  rw [pick_sensor, h]

lemma stamp_axisGet (s : Fin 6 → Sample) (tc : ℕ) (t : ℤ) (j : Fin 6) (b : Fin 3) :
    axisGet (stamp s tc t) j b = axisGet s j b := by
  fin_cases b <;> simp [axisGet, stamp, apply_ite]

lemma stamp_time_of_touched (s : Fin 6 → Sample) (tc : ℕ) (t : ℤ) (j : Fin 6)
    (h : tc.testBit (j : ℕ) = true) : ((stamp s tc t) j).time = t := by
  simp [stamp, h]

lemma stamp_status_sensor (s : Fin 6 → Sample) (tc : ℕ) (t : ℤ) (j : Fin 6) :
    ((stamp s tc t) j).status = (s j).status ∧
    ((stamp s tc t) j).sensor = (s j).sensor := by
  unfold stamp
  split <;> exact ⟨rfl, rfl⟩

lemma pollLoop_boundary (s : Fin 6 → Sample) (tc : ℕ) (b : InputEvent)
    (rest : List InputEvent) (hb : b.type = EV_SYN) (hbc : ¬(b.code = SYN_CONFIG))
    (htc : tc ≠ 0) :
    pollLoop s tc (b :: rest) =
      match pick_sensor ⟨stamp s tc (b.timeSec * 1000000000 + b.timeUsec * 1000), tc⟩ with
      | some (i, v, st3) => (.sample i v, st3)
      | none =>
        (.noPick, ⟨stamp s tc (b.timeSec * 1000000000 + b.timeUsec * 1000), tc⟩) := by
  simp [pollLoop, hb, hbc, htc]

lemma pollLoop_boundary_skip (s : Fin 6 → Sample) (b : InputEvent)
    (rest : List InputEvent) (hb : b.type = EV_SYN) (hbc : ¬(b.code = SYN_CONFIG)) :
    pollLoop s 0 (b :: rest) = pollLoop s 0 rest := by
  simp [pollLoop, hb, hbc]

lemma data__poll_pending_zero (st : DataState) (evs : List InputEvent)
    (hp : st.pending = 0) : data__poll st evs = pollLoop st.sensors 0 evs := by
  rw [data__poll, if_neg (by simp [hp])]

lemma data__poll_fast (st : DataState) (evs : List InputEvent) (i : Fin 6)
    (hp : st.pending ≠ 0) (h : pickIdx st.pending = some i) :
    data__poll st evs = (.sample i { st.sensors i with sensor := 2 ^ (i : ℕ) },
      { st with pending := st.pending &&& (M32 ^^^ 2 ^ (i : ℕ)) }) := by
  rw [data__poll, if_pos hp, pick_sensor_eq st i h]

/- Helper lemmas about the control path. -/

/-- Two control contexts agree on the two masks. -/
def masksEq (s1 s2 : CtrlState) : Prop :=
  s1.active_sensors = s2.active_sensors ∧ s1.active_drivers = s2.active_drivers

lemma masksEq_refl (s : CtrlState) : masksEq s s := ⟨rfl, rfl⟩

lemma masksEq_trans {s1 s2 s3 : CtrlState} (h1 : masksEq s1 s2) (h2 : masksEq s2 s3) :
    masksEq s1 s3 := ⟨h1.1.trans h2.1, h1.2.trans h2.2⟩

lemma setFd_masksEq (st : CtrlState) (d : Drv) (b : Bool) : masksEq (setFd st d b) st := by
  cases d <;> exact ⟨rfl, rfl⟩

lemma open_dev_masksEq (o : DevOracle) (st : CtrlState) (d : Drv) :
    masksEq (open_dev o st d).2.1 st := by
  unfold open_dev
  split_ifs <;> first
    | exact masksEq_refl st
    | exact setFd_masksEq st d true

lemma close_dev_masksEq (st : CtrlState) (d : Drv) (en : ℕ) :
    masksEq (close_dev st d en).1 st := by
  unfold close_dev
  split_ifs <;> first
    | exact masksEq_refl st
    | exact setFd_masksEq st d false

lemma accelBlock_masksEq (o : DevOracle) (st : CtrlState) (c ne : ℕ) (err : ℤ) :
    masksEq (accelBlock o st c ne err).2.1 st := by
  unfold accelBlock
  dsimp only
  split_ifs <;> dsimp only <;>
    first
      | exact masksEq_refl st
      | exact open_dev_masksEq o st Drv.lis
      | exact masksEq_trans (close_dev_masksEq _ Drv.lis ne) (open_dev_masksEq o st Drv.lis)

lemma sfhBlock_masksEq (o : DevOracle) (st : CtrlState) (c ne : ℕ) (err : ℤ) :
    masksEq (sfhBlock o st c ne err).2.1 st := by
  unfold sfhBlock
  dsimp only
  split_ifs <;> dsimp only <;>
    first
      | exact masksEq_refl st
      | exact open_dev_masksEq o st Drv.sfh
      | exact masksEq_trans (close_dev_masksEq _ Drv.sfh ne) (open_dev_masksEq o st Drv.sfh)

lemma akmBlock_masksEq (o : DevOracle) (st : CtrlState) (c ne : ℕ) (err : ℤ) :
    masksEq (akmBlock o st c ne err).2.1 st := by
  unfold akmBlock
  dsimp only
  split_ifs <;> dsimp only <;>
    first
      | exact masksEq_refl st
      | exact masksEq_trans (close_dev_masksEq _ Drv.akm ne) (open_dev_masksEq o st Drv.akm)

lemma kxtf9Result_neg (o : DevOracle) (err : ℤ) (h : err < 0) :
    kxtf9Result o err < 0 := by
  unfold kxtf9Result
  cases o.kxtf9Errno with
  | none => exact h
  | some e =>
    dsimp only
    have hp : (0 : ℤ) < ((e : ℕ) : ℤ) := by exact_mod_cast e.pos
    omega

lemma kxtf9Result_of_some (o : DevOracle) (err : ℤ) (e : ℕ+)
    (he : o.kxtf9Errno = some e) : kxtf9Result o err = -((e : ℕ) : ℤ) := by
  unfold kxtf9Result
  rw [he]

lemma accelBlock_err_neg (o : DevOracle) (st : CtrlState) (c ne : ℕ) (err : ℤ)
    (h : err < 0) : (accelBlock o st c ne err).1 < 0 := by
  unfold accelBlock
  dsimp only
  split_ifs <;> dsimp only <;>
    first
      | exact h
      | exact kxtf9Result_neg o err h
      | decide

lemma sfhBlock_err_neg (o : DevOracle) (st : CtrlState) (c ne : ℕ) (err : ℤ)
    (h : err < 0) : (sfhBlock o st c ne err).1 < 0 := by
  unfold sfhBlock
  dsimp only
  split_ifs <;> dsimp only <;> first | exact h | decide

lemma akmBlock_err_neg (o : DevOracle) (st : CtrlState) (c ne : ℕ) (err : ℤ)
    (h : err < 0) : (akmBlock o st c ne err).1 < 0 := by
  unfold akmBlock
  dsimp only
  split_ifs <;> dsimp only <;> first | exact h | decide

lemma open_dev_no_kx (o : DevOracle) (st : CtrlState) (d : Drv) (f : ℕ) :
    DevCmd.kxtf9SetEnable f ∉ (open_dev o st d).2.2 := by
  unfold open_dev
  split_ifs <;> simp

lemma close_dev_no_kx (st : CtrlState) (d : Drv) (en : ℕ) (f : ℕ) :
    DevCmd.kxtf9SetEnable f ∉ (close_dev st d en).2 := by
  unfold close_dev
  split_ifs <;> simp

lemma sfhBlock_no_kx (o : DevOracle) (st : CtrlState) (c ne : ℕ) (err : ℤ) (f : ℕ) :
    DevCmd.kxtf9SetEnable f ∉ (sfhBlock o st c ne err).2.2 := by
  unfold sfhBlock
  dsimp only
  split_ifs <;> dsimp only <;>
    first
      | exact List.not_mem_nil _
      | exact open_dev_no_kx o st Drv.sfh f
      | (intro hm
         rcases List.mem_append.mp hm with hm | hm
         · exact open_dev_no_kx o st Drv.sfh f hm
         · exact close_dev_no_kx _ Drv.sfh ne f hm)

lemma akmBlock_no_kx (o : DevOracle) (st : CtrlState) (c ne : ℕ) (err : ℤ) (f : ℕ) :
    DevCmd.kxtf9SetEnable f ∉ (akmBlock o st c ne err).2.2 := by
  unfold akmBlock
  dsimp only
  split_ifs <;> dsimp only <;>
    first
      | exact List.not_mem_nil _
      | (intro hm
         rcases List.mem_append.mp hm with hm | hm
         · exact open_dev_no_kx o st Drv.akm f hm
         · exact close_dev_no_kx _ Drv.akm ne f hm)

lemma accelBlock_err_of_kx (o : DevOracle) (st : CtrlState) (c ne : ℕ) (err : ℤ) (f : ℕ)
    (hmem : DevCmd.kxtf9SetEnable f ∈ (accelBlock o st c ne err).2.2) (e : ℕ+)
    (he : o.kxtf9Errno = some e) : (accelBlock o st c ne err).1 = -((e : ℕ) : ℤ) := by
  unfold accelBlock at hmem ⊢
  dsimp only at hmem ⊢
  split_ifs at hmem ⊢ <;> dsimp only <;>
    first
      | exact kxtf9Result_of_some o err e he
      | exact absurd hmem (open_dev_no_kx o st Drv.lis f)
      | exact absurd hmem (List.not_mem_nil _)

lemma list_countP_kx_zero (l : List DevCmd) (h : ∀ f : ℕ, DevCmd.kxtf9SetEnable f ∉ l) :
    l.countP isKxtf9Cmd = 0 := by
  rw [List.countP_eq_zero]
  intro c hc
  cases c with
  | openDev d => simp [isKxtf9Cmd]
  | closeDev d => simp [isKxtf9Cmd]
  | kxtf9SetEnable f => exact absurd hc (h f)

lemma accelBlock_kx_count (o : DevOracle) (st : CtrlState) (c ne : ℕ) (err : ℤ) :
    (accelBlock o st c ne err).2.2.countP isKxtf9Cmd ≤ 1 := by
  unfold accelBlock
  dsimp only
  split_ifs <;> dsimp only <;>
    first
      | (have h1 := list_countP_kx_zero _ (fun f => open_dev_no_kx o st Drv.lis f)
         have h2 := list_countP_kx_zero _
           (fun f => close_dev_no_kx (open_dev o st Drv.lis).2.1 Drv.lis ne f)
         simp [List.countP_append, List.countP_cons, h1, h2, isKxtf9Cmd])

lemma drv_ne_akm_lis : Drv.lis ≠ Drv.akm := by decide

lemma drv_ne_akm_sfh : Drv.sfh ≠ Drv.akm := by decide

lemma setFd_fdAkm (st : CtrlState) (d : Drv) (b : Bool) (hd : d ≠ Drv.akm) :
    (setFd st d b).fdAkm = st.fdAkm := by
  cases d with
  | lis => rfl
  | sfh => rfl
  | akm => exact absurd rfl hd

lemma open_dev_fdAkm (o : DevOracle) (st : CtrlState) (d : Drv) (hd : d ≠ Drv.akm) :
    (open_dev o st d).2.1.fdAkm = st.fdAkm := by
  unfold open_dev
  split_ifs <;> first | rfl | exact setFd_fdAkm st d true hd

lemma close_dev_fdAkm (st : CtrlState) (d : Drv) (en : ℕ) (hd : d ≠ Drv.akm) :
    (close_dev st d en).1.fdAkm = st.fdAkm := by
  unfold close_dev
  split_ifs <;> first | rfl | exact setFd_fdAkm st d false hd

lemma accelBlock_fdAkm (o : DevOracle) (st : CtrlState) (c ne : ℕ) (err : ℤ) :
    (accelBlock o st c ne err).2.1.fdAkm = st.fdAkm := by
  unfold accelBlock
  dsimp only
  split_ifs <;> dsimp only <;>
    first
      | rfl
      | exact open_dev_fdAkm o st Drv.lis drv_ne_akm_lis
      | exact (close_dev_fdAkm _ Drv.lis ne drv_ne_akm_lis).trans
          (open_dev_fdAkm o st Drv.lis drv_ne_akm_lis)

lemma sfhBlock_fdAkm (o : DevOracle) (st : CtrlState) (c ne : ℕ) (err : ℤ) :
    (sfhBlock o st c ne err).2.1.fdAkm = st.fdAkm := by
  unfold sfhBlock
  dsimp only
  split_ifs <;> dsimp only <;>
    first
      | rfl
      | exact open_dev_fdAkm o st Drv.sfh drv_ne_akm_sfh
      | exact (close_dev_fdAkm _ Drv.sfh ne drv_ne_akm_sfh).trans
          (open_dev_fdAkm o st Drv.sfh drv_ne_akm_sfh)

lemma akmBlock_open_mem (o : DevOracle) (st : CtrlState) (c ne : ℕ) (err : ℤ)
    (hc : c &&& (SENSORS_ORIENTATION ||| SENSORS_TEMPERATURE ||| SENSORS_MAGNETIC_FIELD) ≠ 0)
    (hfd : st.fdAkm = false) :
    DevCmd.openDev Drv.akm ∈ (akmBlock o st c ne err).2.2 := by
  unfold akmBlock
  dsimp only
  rw [if_pos hc]
  dsimp only
  refine List.mem_append_left _ ?_
  unfold open_dev
  have h1 : getFd st Drv.akm = false := hfd
  rw [h1, if_neg (show ¬(false = true) by simp)]
  split_ifs <;> exact List.mem_singleton_self _

lemma activateCore_masks_of_ret_ne (o : DevOracle) (st : CtrlState) (na ne : ℕ)
    (h : (activateCore o st na ne).ret ≠ 0) :
    masksEq (activateCore o st na ne).state st := by
  unfold activateCore at h ⊢
  dsimp only at h ⊢
  split_ifs at h ⊢ <;> dsimp only <;>
    first
      | exact absurd rfl h
      | exact masksEq_trans (akmBlock_masksEq _ _ _ _ _)
          (masksEq_trans (sfhBlock_masksEq _ _ _ _ _) (accelBlock_masksEq _ _ _ _ _))

lemma activateCore_commit (o : DevOracle) (st : CtrlState) (na ne : ℕ)
    (h : (activateCore o st na ne).ret = 0) :
    (activateCore o st na ne).state.active_sensors = na ∧
    (activateCore o st na ne).state.active_drivers = ne := by
  unfold activateCore at h ⊢
  dsimp only at h ⊢
  split_ifs at h ⊢ <;> dsimp only at h ⊢ <;>
    first
      | exact ⟨rfl, rfl⟩
      | omega

lemma activateCore_changed_zero (o : DevOracle) (st : CtrlState) (na ne : ℕ)
    (hch : st.active_drivers ^^^ ne = 0) :
    activateCore o st na ne =
      ⟨0, { st with active_sensors := na, active_drivers := ne }, []⟩ := by
  unfold activateCore
  dsimp only
  rw [if_neg (by simp [hch])]

lemma activateCore_err_of_kx (o : DevOracle) (st : CtrlState) (na ne : ℕ) (f : ℕ) (e : ℕ+)
    (hmem : DevCmd.kxtf9SetEnable f ∈ (activateCore o st na ne).trace)
    (he : o.kxtf9Errno = some e) :
    (activateCore o st na ne).ret < 0 := by
  unfold activateCore at hmem ⊢
  dsimp only at hmem ⊢
  split_ifs at hmem ⊢ with hch hk
  · exact hk
  · exfalso
    apply hk
    rcases List.mem_append.mp hmem with hm | hm
    · rcases List.mem_append.mp hm with hm2 | hm2
      · have ha := accelBlock_err_of_kx o st _ ne 0 f hm2 e he
        apply akmBlock_err_neg
        apply sfhBlock_err_neg
        rw [ha]
        have hp : (0 : ℤ) < ((e : ℕ) : ℤ) := by exact_mod_cast e.pos
        omega
      · exact absurd hm2 (sfhBlock_no_kx _ _ _ _ _ f)
    · exact absurd hm (akmBlock_no_kx _ _ _ _ _ f)
  · exact absurd hmem (List.not_mem_nil _)

lemma sfhBlock_kx_count_zero (o : DevOracle) (st : CtrlState) (c ne : ℕ) (err : ℤ) :
    (sfhBlock o st c ne err).2.2.countP isKxtf9Cmd = 0 :=
  list_countP_kx_zero _ (fun f => sfhBlock_no_kx o st c ne err f)

lemma akmBlock_kx_count_zero (o : DevOracle) (st : CtrlState) (c ne : ℕ) (err : ℤ) :
    (akmBlock o st c ne err).2.2.countP isKxtf9Cmd = 0 :=
  list_countP_kx_zero _ (fun f => akmBlock_no_kx o st c ne err f)

lemma activateCore_kx_count (o : DevOracle) (st : CtrlState) (na ne : ℕ) :
    (activateCore o st na ne).trace.countP isKxtf9Cmd ≤ 1 := by
  unfold activateCore
  dsimp only
  split_ifs <;> dsimp only <;>
    first
      | (have h1 := accelBlock_kx_count o st (st.active_drivers ^^^ ne) ne 0
         simp only [List.countP_append, sfhBlock_kx_count_zero, akmBlock_kx_count_zero]
         omega)
      | simp

lemma control__activate_of_valid (o : DevOracle) (st : CtrlState) (handle : ℤ) (en : Bool)
    (hv : ¬(handle < SENSORS_HANDLE_BASE ∨
        SENSORS_HANDLE_BASE + (MAX_NUM_SENSORS : ℤ) ≤ handle)) :
    control__activate o st handle en =
      activateCore o st (new_active_of st.active_sensors handle en)
        (new_enabled_of (new_active_of st.active_sensors handle en)) := by
  rw [control__activate, if_neg hv]

lemma control__activate_of_invalid (o : DevOracle) (st : CtrlState) (handle : ℤ) (en : Bool)
    (hv : handle < SENSORS_HANDLE_BASE ∨
        SENSORS_HANDLE_BASE + (MAX_NUM_SENSORS : ℤ) ≤ handle) :
    control__activate o st handle en = ⟨-1, st, []⟩ := by
  rw [control__activate, if_pos hv]

lemma accelBlock_run (o : DevOracle) (st : CtrlState) (c ne : ℕ) (err : ℤ)
    (hc : c &&& SENSORS_ACCELERATION ≠ 0)
    (hlis : getFd st Drv.lis = true ∨ openOk o Drv.lis = true) :
    (accelBlock o st c ne err).1 = kxtf9Result o err ∧
    ∃ f : ℕ, DevCmd.kxtf9SetEnable f ∈ (accelBlock o st c ne err).2.2 := by
  have hod : (open_dev o st Drv.lis).1 = true := by
    unfold open_dev
    split_ifs with g1 g2
    · rfl
    · rfl
    · rcases hlis with h | h
      · exact absurd h g1
      · exact absurd h g2
  unfold accelBlock
  dsimp only
  rw [if_pos hc, if_pos hod]
  dsimp only
  exact ⟨rfl, ⟨_, List.mem_append_left _ (List.mem_append_right _ (List.mem_singleton_self _))⟩⟩

lemma new_active_of_idem : ∀ a : ℕ, a < 64 → ∀ X : ℕ, X < 6 →
    new_active_of (new_active_of a (X : ℤ) true) (X : ℤ) true =
      new_active_of a (X : ℤ) true := by
  decide

lemma enable_orient_bits : ∀ a : ℕ, a < 64 →
    new_enabled_of (new_active_of a 2 true) &&& SENSORS_ORIENTATION ≠ 0 ∧
    new_enabled_of (new_active_of a 2 true) &&& SENSORS_ACCELERATION ≠ 0 := by
  decide

lemma disable_orient_accel : ∀ a : ℕ, a < 64 →
    (new_enabled_of (new_active_of a 2 false) &&& SENSORS_ACCELERATION ≠ 0 ↔
      new_active_of a 2 false &&& SENSORS_ACCELERATION ≠ 0) := by
  decide

lemma activateCore_no_abort (o : DevOracle) (st : CtrlState) (na ne : ℕ) (e : ℕ+)
    (hkx : o.kxtf9Errno = some e)
    (hacc : (st.active_drivers ^^^ ne) &&& SENSORS_ACCELERATION ≠ 0)
    (hlis : getFd st Drv.lis = true ∨ openOk o Drv.lis = true)
    (hakm : (st.active_drivers ^^^ ne) &&&
        (SENSORS_ORIENTATION ||| SENSORS_TEMPERATURE ||| SENSORS_MAGNETIC_FIELD) ≠ 0)
    (hfd : st.fdAkm = false) :
    (activateCore o st na ne).ret < 0 ∧
    masksEq (activateCore o st na ne).state st ∧
    (∃ f : ℕ, DevCmd.kxtf9SetEnable f ∈ (activateCore o st na ne).trace) ∧
    DevCmd.openDev Drv.akm ∈ (activateCore o st na ne).trace := by
  have hch : st.active_drivers ^^^ ne ≠ 0 := by
    intro h
    rw [h] at hacc
    exact hacc (Nat.zero_and _)
  obtain ⟨herr, f, hkmem⟩ := accelBlock_run o st (st.active_drivers ^^^ ne) ne 0 hacc hlis
  have ha_neg : (accelBlock o st (st.active_drivers ^^^ ne) ne 0).1 < 0 := by
    rw [herr, kxtf9Result_of_some o 0 e hkx]
    have hp : (0 : ℤ) < ((e : ℕ) : ℤ) := by exact_mod_cast e.pos
    omega
  have hp_neg := sfhBlock_err_neg o (accelBlock o st (st.active_drivers ^^^ ne) ne 0).2.1
    (st.active_drivers ^^^ ne) ne (accelBlock o st (st.active_drivers ^^^ ne) ne 0).1 ha_neg
  have hk_neg := akmBlock_err_neg o
    (sfhBlock o (accelBlock o st (st.active_drivers ^^^ ne) ne 0).2.1
      (st.active_drivers ^^^ ne) ne (accelBlock o st (st.active_drivers ^^^ ne) ne 0).1).2.1
    (st.active_drivers ^^^ ne) ne
    (sfhBlock o (accelBlock o st (st.active_drivers ^^^ ne) ne 0).2.1
      (st.active_drivers ^^^ ne) ne (accelBlock o st (st.active_drivers ^^^ ne) ne 0).1).1
    hp_neg
  unfold activateCore
  dsimp only
  rw [if_pos hch, if_pos hk_neg]
  dsimp only
  refine ⟨hk_neg, ?_, ⟨f, ?_⟩, ?_⟩
  · exact masksEq_trans (akmBlock_masksEq _ _ _ _ _)
      (masksEq_trans (sfhBlock_masksEq _ _ _ _ _) (accelBlock_masksEq _ _ _ _ _))
  · exact List.mem_append_left _ (List.mem_append_left _ hkmem)
  · refine List.mem_append_right _ ?_
    apply akmBlock_open_mem o _ _ ne _ hakm
    rw [sfhBlock_fdAkm, accelBlock_fdAkm]
    exact hfd

/- The claims. -/

/-- C1 (counterexample): from a fresh context, requesting Orientation with
an oracle on which the KXTF9 enable ioctl fails with errno 5 and the AKM
open fails, the call does not stop at the failed enable command: it goes on
to open the AKM device, and it returns -1 (the AKM open failure), not -5,
so the returned error does not identify the device whose enable command
failed. -/
theorem c1_first_failure_counterexample :
    (control__activate oracleKxFailAkmFail ctrl0 2 true).ret = -1 ∧
    (control__activate oracleKxFailAkmFail ctrl0 2 true).trace =
      [DevCmd.openDev Drv.lis, DevCmd.kxtf9SetEnable 1, DevCmd.openDev Drv.akm] ∧
    oracleKxFailAkmFail.kxtf9Errno = some 5 ∧
    (control__activate oracleKxFailAkmFail ctrl0 2 true).ret ≠ -5 := by
  decide

/-- C1 (amended): when the KXTF9 enable ioctl fails during a transition
whose changed-driver set also touches the AKM group, control__activate does
not abort: the enable command is issued and fails, the AKM device is still
opened afterwards, and the call returns a negative error code while leaving
both masks unchanged. -/
theorem c1_failure_no_abort (o : DevOracle) (st : CtrlState) (handle : ℤ)
    (enabled : Bool) (e : ℕ+)
    (hv : ¬(handle < SENSORS_HANDLE_BASE ∨
        SENSORS_HANDLE_BASE + (MAX_NUM_SENSORS : ℤ) ≤ handle))
    (hkx : o.kxtf9Errno = some e)
    (hacc : (st.active_drivers ^^^
        new_enabled_of (new_active_of st.active_sensors handle enabled)) &&&
        SENSORS_ACCELERATION ≠ 0)
    (hlis : st.fdLis = true ∨ o.lisOpenOk = true)
    (hakm : (st.active_drivers ^^^
        new_enabled_of (new_active_of st.active_sensors handle enabled)) &&&
        (SENSORS_ORIENTATION ||| SENSORS_TEMPERATURE ||| SENSORS_MAGNETIC_FIELD) ≠ 0)
    (hfd : st.fdAkm = false) :
    (control__activate o st handle enabled).ret < 0 ∧
    (control__activate o st handle enabled).state.active_sensors = st.active_sensors ∧
    (control__activate o st handle enabled).state.active_drivers = st.active_drivers ∧
    (∃ f : ℕ, DevCmd.kxtf9SetEnable f ∈ (control__activate o st handle enabled).trace) ∧
    DevCmd.openDev Drv.akm ∈ (control__activate o st handle enabled).trace := by
  rw [control__activate_of_valid o st handle enabled hv]
  obtain ⟨h1, h2, h3, h4⟩ := activateCore_no_abort o st
    (new_active_of st.active_sensors handle enabled)
    (new_enabled_of (new_active_of st.active_sensors handle enabled)) e hkx hacc hlis hakm hfd
  exact ⟨h1, h2.1, h2.2, h3, h4⟩

/-- C1 (amended, witness): the amended statement instantiated at the
counterexample input. -/
theorem c1_failure_no_abort_witness :
    (¬((2 : ℤ) < SENSORS_HANDLE_BASE ∨
        SENSORS_HANDLE_BASE + (MAX_NUM_SENSORS : ℤ) ≤ 2)) ∧
    oracleKxFailAkmFail.kxtf9Errno = some 5 ∧
    ((control__activate oracleKxFailAkmFail ctrl0 2 true).ret < 0 ∧
      (control__activate oracleKxFailAkmFail ctrl0 2 true).state.active_sensors =
        ctrl0.active_sensors ∧
      (control__activate oracleKxFailAkmFail ctrl0 2 true).state.active_drivers =
        ctrl0.active_drivers ∧
      (∃ f : ℕ, DevCmd.kxtf9SetEnable f ∈
        (control__activate oracleKxFailAkmFail ctrl0 2 true).trace) ∧
      DevCmd.openDev Drv.akm ∈ (control__activate oracleKxFailAkmFail ctrl0 2 true).trace) :=
  ⟨by decide, by decide,
    c1_failure_no_abort oracleKxFailAkmFail ctrl0 2 true 5 (by decide) (by decide)
      (by decide) (by decide) (by decide) (by decide)⟩

/-- C2: evaluation of the replication mirror at the failing input.  In an
epoch where only the magnetic sensor was touched (touched mask = bit 1,
orientation bit 2 not touched), the mirrored output nevertheless contains
the orientation group, because the magnetic arm of the switch has no break
and falls through into the orientation arm. -/
theorem c2_mirror_fallthrough_eval :
    Nat.testBit 2 2 = false ∧
    mirrorEpoch 0 2 filterDemo =
      [⟨EV_ABS, EVENT_TYPE_MAGV_X, 4⟩, ⟨EV_ABS, EVENT_TYPE_MAGV_Y, 5⟩,
       ⟨EV_ABS, EVENT_TYPE_MAGV_Z, 6⟩, synthSyn,
       ⟨EV_ABS, EVENT_TYPE_YAW, 7⟩, ⟨EV_ABS, EVENT_TYPE_PITCH, 8⟩,
       ⟨EV_ABS, EVENT_TYPE_ROLL, 9⟩, synthSyn] ∧
    hasEv (mirrorEpoch 0 2 filterDemo) EV_ABS EVENT_TYPE_YAW := by
  refine ⟨by decide, by decide, ?_⟩
  exact ⟨⟨EV_ABS, EVENT_TYPE_YAW, 7⟩, by decide, rfl, rfl⟩

/-- C3: if any device operation of a transition fails (in particular when
the one live enable/disable command, the KXTF9 enable ioctl, is issued and
fails) control__activate returns an error and leaves active_sensors and
active_drivers exactly as they were; the new masks are committed exactly on
the calls that return 0. -/
theorem c3_masks_committed_atomically (o : DevOracle) (st : CtrlState)
    (handle : ℤ) (enabled : Bool) :
    ((control__activate o st handle enabled).ret ≠ 0 →
      (control__activate o st handle enabled).state.active_sensors = st.active_sensors ∧
      (control__activate o st handle enabled).state.active_drivers = st.active_drivers) ∧
    ((control__activate o st handle enabled).ret = 0 →
      (control__activate o st handle enabled).state.active_sensors =
        new_active_of st.active_sensors handle enabled ∧
      (control__activate o st handle enabled).state.active_drivers =
        new_enabled_of (new_active_of st.active_sensors handle enabled)) ∧
    (∀ f : ℕ, ∀ e : ℕ+,
      DevCmd.kxtf9SetEnable f ∈ (control__activate o st handle enabled).trace →
      o.kxtf9Errno = some e →
      (control__activate o st handle enabled).ret < 0) := by
  by_cases hv : handle < SENSORS_HANDLE_BASE ∨
      SENSORS_HANDLE_BASE + (MAX_NUM_SENSORS : ℤ) ≤ handle
  · rw [control__activate_of_invalid o st handle enabled hv]
    exact ⟨fun _ => ⟨rfl, rfl⟩,
      fun h0 => absurd h0 (show ¬((-1 : ℤ) = 0) by decide),
      fun f e hm _ => absurd hm (List.not_mem_nil _)⟩
  · rw [control__activate_of_valid o st handle enabled hv]
    exact ⟨fun hr => activateCore_masks_of_ret_ne o st _ _ hr,
      activateCore_commit o st _ _,
      fun f e hm he => activateCore_err_of_kx o st _ _ f e hm he⟩

/-- C3 (witness): instantiated at a concrete failing transition. -/
theorem c3_masks_committed_atomically_witness :
    ((control__activate oracleKxFailAkmFail ctrl0 2 true).ret ≠ 0) ∧
    ((control__activate oracleKxFailAkmFail ctrl0 2 true).state.active_sensors =
        ctrl0.active_sensors ∧
      (control__activate oracleKxFailAkmFail ctrl0 2 true).state.active_drivers =
        ctrl0.active_drivers) ∧
    ((control__activate oracleAllOk ctrl0 2 true).ret = 0) ∧
    ((control__activate oracleAllOk ctrl0 2 true).state.active_sensors =
        new_active_of ctrl0.active_sensors 2 true ∧
      (control__activate oracleAllOk ctrl0 2 true).state.active_drivers =
        new_enabled_of (new_active_of ctrl0.active_sensors 2 true)) :=
  ⟨by decide,
    (c3_masks_committed_atomically oracleKxFailAkmFail ctrl0 2 true).1 (by decide),
    by decide,
    (c3_masks_committed_atomically oracleAllOk ctrl0 2 true).2.1 (by decide)⟩

/-- C4: after any successful set_active call the committed DriverMask is
the committed ActivationMask with the acceleration bit forced on whenever
the orientation bit is set; enabling Orientation puts both the orientation
and acceleration bits into the DriverMask, and after disabling Orientation
the acceleration bit stays in the DriverMask exactly when Acceleration
itself is still active. -/
theorem c4_driver_mask_dependency (o : DevOracle) (st : CtrlState) (handle : ℤ)
    (enabled : Bool) (hA : st.active_sensors < 64) :
    ((control__activate o st handle enabled).ret = 0 →
      (control__activate o st handle enabled).state.active_drivers =
        (if (control__activate o st handle enabled).state.active_sensors &&&
            SENSORS_ORIENTATION ≠ 0
         then (control__activate o st handle enabled).state.active_sensors |||
            SENSORS_ACCELERATION
         else (control__activate o st handle enabled).state.active_sensors)) ∧
    (handle = 2 → enabled = true → (control__activate o st handle enabled).ret = 0 →
      (control__activate o st handle enabled).state.active_drivers &&&
          SENSORS_ORIENTATION ≠ 0 ∧
      (control__activate o st handle enabled).state.active_drivers &&&
          SENSORS_ACCELERATION ≠ 0) ∧
    (handle = 2 → enabled = false → (control__activate o st handle enabled).ret = 0 →
      ((control__activate o st handle enabled).state.active_drivers &&&
          SENSORS_ACCELERATION ≠ 0 ↔
       (control__activate o st handle enabled).state.active_sensors &&&
          SENSORS_ACCELERATION ≠ 0)) := by
  refine ⟨?_, ?_, ?_⟩
  · intro h0
    by_cases hv : handle < SENSORS_HANDLE_BASE ∨
        SENSORS_HANDLE_BASE + (MAX_NUM_SENSORS : ℤ) ≤ handle
    · rw [control__activate_of_invalid o st handle enabled hv] at h0
      exact absurd h0 (show ¬((-1 : ℤ) = 0) by decide)
    · rw [control__activate_of_valid o st handle enabled hv] at h0 ⊢
      obtain ⟨ha, hd⟩ := activateCore_commit o st _ _ h0
      rw [ha, hd]
      rfl
  · rintro rfl rfl h0
    by_cases hv : (2 : ℤ) < SENSORS_HANDLE_BASE ∨
        SENSORS_HANDLE_BASE + (MAX_NUM_SENSORS : ℤ) ≤ 2
    · rw [control__activate_of_invalid o st 2 true hv] at h0
      exact absurd h0 (show ¬((-1 : ℤ) = 0) by decide)
    · rw [control__activate_of_valid o st 2 true hv] at h0 ⊢
      obtain ⟨ha, hd⟩ := activateCore_commit o st _ _ h0
      rw [hd]
      exact enable_orient_bits st.active_sensors hA
  · rintro rfl rfl h0
    by_cases hv : (2 : ℤ) < SENSORS_HANDLE_BASE ∨
        SENSORS_HANDLE_BASE + (MAX_NUM_SENSORS : ℤ) ≤ 2
    · rw [control__activate_of_invalid o st 2 false hv] at h0
      exact absurd h0 (show ¬((-1 : ℤ) = 0) by decide)
    · rw [control__activate_of_valid o st 2 false hv] at h0 ⊢
      obtain ⟨ha, hd⟩ := activateCore_commit o st _ _ h0
      rw [ha, hd]
      exact disable_orient_accel st.active_sensors hA

/-- C4 (witness): enabling Orientation from a fresh context. -/
theorem c4_driver_mask_dependency_witness :
    ctrl0.active_sensors < 64 ∧
    (control__activate oracleAllOk ctrl0 2 true).ret = 0 ∧
    ((control__activate oracleAllOk ctrl0 2 true).state.active_drivers &&&
        SENSORS_ORIENTATION ≠ 0 ∧
     (control__activate oracleAllOk ctrl0 2 true).state.active_drivers &&&
        SENSORS_ACCELERATION ≠ 0) :=
  ⟨by decide, by decide,
    (c4_driver_mask_dependency oracleAllOk ctrl0 2 true (by decide)).2.1
      rfl rfl (by decide)⟩

lemma idempotent_second_call (o2 : DevOracle) (st1 : CtrlState) (X : ℕ) (hX : X < 6)
    (h_act : new_active_of st1.active_sensors (X : ℤ) true = st1.active_sensors)
    (h_drv : st1.active_drivers = new_enabled_of st1.active_sensors) :
    control__activate o2 st1 (X : ℤ) true = ⟨0, st1, []⟩ := by
  have hv : ¬((X : ℤ) < SENSORS_HANDLE_BASE ∨
      SENSORS_HANDLE_BASE + (MAX_NUM_SENSORS : ℤ) ≤ (X : ℤ)) := by
    simp only [SENSORS_HANDLE_BASE, MAX_NUM_SENSORS]
    omega
  rw [control__activate_of_valid o2 st1 (X : ℤ) true hv, h_act,
    activateCore_changed_zero o2 st1 st1.active_sensors (new_enabled_of st1.active_sensors)
      (by rw [h_drv, Nat.xor_self])]
  rw [← h_drv]

/-- C8: if set_active(X, true) succeeds, calling it again with the same
sensor computes an unchanged DriverMask, issues no device operations at
all (empty trace), returns 0 and leaves the whole context unchanged; the
first call itself issues the KXTF9 enable command at most once, so the
pair of calls issues the underlying device command at most once. -/
theorem c8_set_active_idempotent (o1 o2 : DevOracle) (st : CtrlState) (X : ℕ)
    (hX : X < 6) (hA : st.active_sensors < 64)
    (h1 : (control__activate o1 st (X : ℤ) true).ret = 0) :
    (control__activate o2 (control__activate o1 st (X : ℤ) true).state (X : ℤ) true).ret = 0 ∧
    (control__activate o2 (control__activate o1 st (X : ℤ) true).state (X : ℤ) true).trace
      = [] ∧
    (control__activate o2 (control__activate o1 st (X : ℤ) true).state (X : ℤ) true).state =
      (control__activate o1 st (X : ℤ) true).state ∧
    ((control__activate o1 st (X : ℤ) true).trace.countP isKxtf9Cmd +
      (control__activate o2 (control__activate o1 st (X : ℤ) true).state (X : ℤ) true).trace.countP
        isKxtf9Cmd) ≤ 1 := by
  have hv : ¬((X : ℤ) < SENSORS_HANDLE_BASE ∨
      SENSORS_HANDLE_BASE + (MAX_NUM_SENSORS : ℤ) ≤ (X : ℤ)) := by
    simp only [SENSORS_HANDLE_BASE, MAX_NUM_SENSORS]
    omega
  rw [control__activate_of_valid o1 st (X : ℤ) true hv] at h1 ⊢
  obtain ⟨ha1, hd1⟩ := activateCore_commit o1 st _ _ h1
  have h2 := idempotent_second_call o2
    (activateCore o1 st (new_active_of st.active_sensors (X : ℤ) true)
      (new_enabled_of (new_active_of st.active_sensors (X : ℤ) true))).state X hX
    (by rw [ha1]; exact new_active_of_idem st.active_sensors hA X hX)
    (by rw [hd1, ha1])
  rw [h2]
  refine ⟨rfl, rfl, rfl, ?_⟩
  have hc := activateCore_kx_count o1 st (new_active_of st.active_sensors (X : ℤ) true)
    (new_enabled_of (new_active_of st.active_sensors (X : ℤ) true))
  simpa using hc

lemma runEvents_touched_none (l : List InputEvent) (h : ∀ e ∈ l, evWrite e = none)
    (s : Fin 6 → Sample) (tc : ℕ) : (runEvents s tc l).2 = tc := by
  induction l generalizing s tc with
  | nil => rfl
  | cons e l ih =>
    rw [runEvents_cons, ih (fun e2 he2 => h e2 (List.mem_cons_of_mem e he2)),
      processEvent_touched_of_none s tc e (h e (List.mem_cons_self e l))]

/-- C5: whenever PendingMask is nonempty, poll takes the fast path and
returns the sample of the highest-numbered pending identity (tagged with
its identity bit), clears exactly that bit and nothing else, and a further
poll from the resulting state, if anything is still pending, returns a
strictly smaller identity — so successive polls drain PendingMask in
strictly descending ordinal order, and poll never returns an identity whose
bit was not pending at call time. -/
theorem c5_poll_drains_descending (st : DataState) (evs : List InputEvent)
    (hp : st.pending ≠ 0) (h64 : st.pending < 64) :
    ∃ i : Fin 6,
      data__poll st evs = (.sample i { st.sensors i with sensor := 2 ^ (i : ℕ) },
        { st with pending := st.pending &&& (M32 ^^^ 2 ^ (i : ℕ)) }) ∧
      st.pending.testBit (i : ℕ) = true ∧
      (∀ j : ℕ, j < 6 → st.pending.testBit j = true → j ≤ (i : ℕ)) ∧
      (∀ j : ℕ, 6 ≤ j → st.pending.testBit j = false) ∧
      (∀ j : ℕ, j < 6 →
        (st.pending &&& (M32 ^^^ 2 ^ (i : ℕ))).testBit j =
          (st.pending.testBit j && !(j == (i : ℕ)))) ∧
      (∀ evs2 : List InputEvent, st.pending &&& (M32 ^^^ 2 ^ (i : ℕ)) ≠ 0 →
        ∃ i2 : Fin 6, (i2 : ℕ) < (i : ℕ) ∧
          data__poll { st with pending := st.pending &&& (M32 ^^^ 2 ^ (i : ℕ)) } evs2 =
            (.sample i2 { st.sensors i2 with sensor := 2 ^ (i2 : ℕ) },
              { st with pending :=
                (st.pending &&& (M32 ^^^ 2 ^ (i : ℕ))) &&& (M32 ^^^ 2 ^ (i2 : ℕ)) })) := by
  obtain ⟨i, hpick, hbit, hmax⟩ := pickIdx_spec st.pending h64 hp
  obtain ⟨hlt, hclear⟩ := clear_bit_spec st.pending h64 i
  refine ⟨i, data__poll_fast st evs i hp hpick, hbit, hmax,
    fun j hj => testBit_high_false _ h64 j hj, hclear, ?_⟩
  intro evs2 hne
  obtain ⟨i2, hpick2, hbit2, hmax2⟩ := pickIdx_spec _ hlt hne
  have heq2 := data__poll_fast
    { st with pending := st.pending &&& (M32 ^^^ 2 ^ (i : ℕ)) } evs2 i2 hne hpick2
  refine ⟨i2, ?_, heq2⟩
  have h6 : (i2 : ℕ) < 6 := i2.isLt
  have hcb := hclear (i2 : ℕ) h6
  rw [hbit2] at hcb
  have hcb2 : st.pending.testBit (i2 : ℕ) = true ∧ (!((i2 : ℕ) == (i : ℕ))) = true := by
    simpa [Bool.and_eq_true] using hcb.symm
  have hne12 : ¬((i2 : ℕ) = (i : ℕ)) := by simpa using hcb2.2
  have hle := hmax (i2 : ℕ) h6 hcb2.1
  omega

/-- C5 (witness): draining pending = {Magnetic, Orientation}. -/
theorem c5_poll_drains_descending_witness :
    ((⟨data__data_open.sensors, 6⟩ : DataState).pending ≠ 0) ∧
    ((⟨data__data_open.sensors, 6⟩ : DataState).pending < 64) ∧
    (∃ i : Fin 6,
      data__poll ⟨data__data_open.sensors, 6⟩ [] =
        (.sample i { data__data_open.sensors i with sensor := 2 ^ (i : ℕ) },
          { (⟨data__data_open.sensors, 6⟩ : DataState) with
              pending := 6 &&& (M32 ^^^ 2 ^ (i : ℕ)) }) ∧
      (6 : ℕ).testBit (i : ℕ) = true ∧
      (∀ j : ℕ, j < 6 → (6 : ℕ).testBit j = true → j ≤ (i : ℕ)) ∧
      (∀ j : ℕ, 6 ≤ j → (6 : ℕ).testBit j = false) ∧
      (∀ j : ℕ, j < 6 →
        ((6 : ℕ) &&& (M32 ^^^ 2 ^ (i : ℕ))).testBit j =
          ((6 : ℕ).testBit j && !(j == (i : ℕ)))) ∧
      (∀ evs2 : List InputEvent, (6 : ℕ) &&& (M32 ^^^ 2 ^ (i : ℕ)) ≠ 0 →
        ∃ i2 : Fin 6, (i2 : ℕ) < (i : ℕ) ∧
          data__poll { (⟨data__data_open.sensors, 6⟩ : DataState) with
              pending := 6 &&& (M32 ^^^ 2 ^ (i : ℕ)) } evs2 =
            (.sample i2 { data__data_open.sensors i2 with sensor := 2 ^ (i2 : ℕ) },
              { (⟨data__data_open.sensors, 6⟩ : DataState) with pending :=
                ((6 : ℕ) &&& (M32 ^^^ 2 ^ (i : ℕ))) &&& (M32 ^^^ 2 ^ (i2 : ℕ)) }))) :=
  ⟨by decide, by decide,
    c5_poll_drains_descending ⟨data__data_open.sensors, 6⟩ [] (by decide) (by decide)⟩

/-- C6: for any epoch of non-synchronization raw events followed by a
synchronization boundary, processed by data__poll from a state with no
pending samples: each axis field of the aggregated samples equals the
conversion of the last raw value written to that field before the boundary;
if anything was touched, the call returns the highest-numbered touched
sample stamped with the boundary time in nanoseconds, every other touched
sensor remains marked pending, the stored sample of every touched sensor carries
that same boundary timestamp, and the stored axis values are exactly the
aggregated ones. -/
theorem c6_epoch_aggregation (st : DataState) (evs : List InputEvent) (b : InputEvent)
    (hp : st.pending = 0)
    (hne : ∀ e ∈ evs, e.type ≠ EV_SYN)
    (hb : b.type = EV_SYN) (hbc : ¬(b.code = SYN_CONFIG)) :
    (∀ l1 : List InputEvent, ∀ e : InputEvent, ∀ l2 : List InputEvent,
      ∀ i : Fin 6, ∀ a : Fin 3, ∀ q : ℚ,
        evs = l1 ++ e :: l2 → evWrite e = some (i, a, q) →
        (∀ e2 ∈ l2, ∀ q2 : ℚ, evWrite e2 ≠ some (i, a, q2)) →
        axisGet (runEvents st.sensors 0 evs).1 i a = q) ∧
    ((runEvents st.sensors 0 evs).2 ≠ 0 →
      ∃ pi : Fin 6, ∃ st2 : DataState,
        data__poll st (evs ++ [b]) =
          (.sample pi { (runEvents st.sensors 0 evs).1 pi with
              sensor := 2 ^ (pi : ℕ),
              time := b.timeSec * 1000000000 + b.timeUsec * 1000 }, st2) ∧
        (runEvents st.sensors 0 evs).2.testBit (pi : ℕ) = true ∧
        (∀ j : ℕ, j < 6 → (runEvents st.sensors 0 evs).2.testBit j = true →
          ((pi : ℕ) ≤ j → j = (pi : ℕ)) ∧
          (j = (pi : ℕ) ∨ st2.pending.testBit j = true)) ∧
        (∀ j : Fin 6, (runEvents st.sensors 0 evs).2.testBit (j : ℕ) = true →
          (st2.sensors j).time = b.timeSec * 1000000000 + b.timeUsec * 1000) ∧
        (∀ j : Fin 6, ∀ a : Fin 3,
          axisGet st2.sensors j a = axisGet (runEvents st.sensors 0 evs).1 j a)) := by
  constructor
  · intro l1 e l2 i a q hsplit hw h2
    rw [hsplit]
    exact runEvents_last_write l1 l2 e i a q hw h2 st.sensors 0
  · intro htc
    have h64 : (runEvents st.sensors 0 evs).2 < 64 :=
      runEvents_touched_lt evs st.sensors 0 (by norm_num)
    obtain ⟨pi, hpick, hbitpi, hmax⟩ := pickIdx_spec (runEvents st.sensors 0 evs).2 h64 htc
    obtain ⟨hlt, hclear⟩ := clear_bit_spec (runEvents st.sensors 0 evs).2 h64 pi
    have hstamp_pi : stamp (runEvents st.sensors 0 evs).1 (runEvents st.sensors 0 evs).2
        (b.timeSec * 1000000000 + b.timeUsec * 1000) pi =
        { (runEvents st.sensors 0 evs).1 pi with
            time := b.timeSec * 1000000000 + b.timeUsec * 1000 } := by
      simp [stamp, hbitpi]
    have hpoll : data__poll st (evs ++ [b]) =
        (.sample pi
          { stamp (runEvents st.sensors 0 evs).1 (runEvents st.sensors 0 evs).2
              (b.timeSec * 1000000000 + b.timeUsec * 1000) pi with sensor := 2 ^ (pi : ℕ) },
          ⟨stamp (runEvents st.sensors 0 evs).1 (runEvents st.sensors 0 evs).2
              (b.timeSec * 1000000000 + b.timeUsec * 1000),
            (runEvents st.sensors 0 evs).2 &&& (M32 ^^^ 2 ^ (pi : ℕ))⟩) := by
      rw [data__poll_pending_zero st _ hp, pollLoop_append evs [b] hne st.sensors 0,
        pollLoop_boundary _ _ b [] hb hbc htc, pick_sensor_eq _ pi hpick]
    refine ⟨pi,
      ⟨stamp (runEvents st.sensors 0 evs).1 (runEvents st.sensors 0 evs).2
          (b.timeSec * 1000000000 + b.timeUsec * 1000),
        (runEvents st.sensors 0 evs).2 &&& (M32 ^^^ 2 ^ (pi : ℕ))⟩,
      ?_, hbitpi, ?_, ?_, ?_⟩
    · rw [hpoll, hstamp_pi]
    · intro j hj htj
      refine ⟨fun hge => le_antisymm (hmax j hj htj) hge, ?_⟩
      by_cases hji : j = (pi : ℕ)
      · exact Or.inl hji
      · right
        rw [hclear j hj, htj]
        simp [hji]
    · intro j htj
      exact stamp_time_of_touched _ _ _ j htj
    · intro j a
      exact stamp_axisGet _ _ _ j a

/-- C6 (witness): an epoch with two writes to the acceleration X axis (the
second wins) and one magnetic X write, closed by a boundary at time
(1 s, 2 us): the last-write rule gives the acceleration X field, and the
boundary delivers the magnetic sample stamped 1000002000 ns. -/
theorem c6_epoch_aggregation_witness :
    data__data_open.pending = 0 ∧
    (∀ e ∈ [evAccelX500, evMagX32, evAccelX1000], e.type ≠ EV_SYN) ∧
    evBoundary.type = EV_SYN ∧
    ¬(evBoundary.code = SYN_CONFIG) ∧
    axisGet (runEvents data__data_open.sensors 0 [evAccelX500, evMagX32, evAccelX1000]).1 0 0 =
      ((1000 : ℤ) : ℚ) * CONVERT_A ∧
    (runEvents data__data_open.sensors 0 [evAccelX500, evMagX32, evAccelX1000]).2 ≠ 0 ∧
    (∃ pi : Fin 6, ∃ st2 : DataState,
      data__poll data__data_open ([evAccelX500, evMagX32, evAccelX1000] ++ [evBoundary]) =
        (.sample pi { (runEvents data__data_open.sensors 0
            [evAccelX500, evMagX32, evAccelX1000]).1 pi with
            sensor := 2 ^ (pi : ℕ),
            time := evBoundary.timeSec * 1000000000 + evBoundary.timeUsec * 1000 }, st2) ∧
      (runEvents data__data_open.sensors 0
          [evAccelX500, evMagX32, evAccelX1000]).2.testBit (pi : ℕ) = true ∧
      (∀ j : ℕ, j < 6 → (runEvents data__data_open.sensors 0
          [evAccelX500, evMagX32, evAccelX1000]).2.testBit j = true →
        ((pi : ℕ) ≤ j → j = (pi : ℕ)) ∧
        (j = (pi : ℕ) ∨ st2.pending.testBit j = true)) ∧
      (∀ j : Fin 6, (runEvents data__data_open.sensors 0
          [evAccelX500, evMagX32, evAccelX1000]).2.testBit (j : ℕ) = true →
        (st2.sensors j).time =
          evBoundary.timeSec * 1000000000 + evBoundary.timeUsec * 1000) ∧
      (∀ j : Fin 6, ∀ a : Fin 3, axisGet st2.sensors j a =
        axisGet (runEvents data__data_open.sensors 0
          [evAccelX500, evMagX32, evAccelX1000]).1 j a)) :=
  ⟨rfl, by decide, rfl, by decide,
    (c6_epoch_aggregation data__data_open [evAccelX500, evMagX32, evAccelX1000]
        evBoundary rfl (by decide) rfl (by decide)).1
      [evAccelX500, evMagX32] evAccelX1000 [] 0 0 (((1000 : ℤ) : ℚ) * CONVERT_A)
      rfl rfl (by intro e2 he2 q2 hq; exact absurd he2 (List.not_mem_nil e2)),
    by decide,
    (c6_epoch_aggregation data__data_open [evAccelX500, evMagX32, evAccelX1000]
        evBoundary rfl (by decide) rfl (by decide)).2 (by decide)⟩

/-- C7: a raw proximity event stores distance 0 whenever the scaled value
(raw divided by 5) is at most the 6.0 cm threshold, stores exactly the
threshold value otherwise, never stores any other distance, and marks the
proximity sensor touched. -/
theorem c7_proximity_quantized (s : Fin 6 → Sample) (tc : ℕ) (v ts tu : ℤ) :
    (((v : ℚ) * CONVERT_P ≤ PROXIMITY_THRESHOLD_CM →
      ((processEvent s tc ⟨EV_ABS, EVENT_TYPE_PROXIMITY, v, ts, tu⟩).1 4).x = 0) ∧
     (¬((v : ℚ) * CONVERT_P ≤ PROXIMITY_THRESHOLD_CM) →
      ((processEvent s tc ⟨EV_ABS, EVENT_TYPE_PROXIMITY, v, ts, tu⟩).1 4).x =
        PROXIMITY_THRESHOLD_CM) ∧
     (((processEvent s tc ⟨EV_ABS, EVENT_TYPE_PROXIMITY, v, ts, tu⟩).1 4).x = 0 ∨
      ((processEvent s tc ⟨EV_ABS, EVENT_TYPE_PROXIMITY, v, ts, tu⟩).1 4).x =
        PROXIMITY_THRESHOLD_CM) ∧
     (processEvent s tc ⟨EV_ABS, EVENT_TYPE_PROXIMITY, v, ts, tu⟩).2 =
       tc ||| SENSORS_PROXIMITY) := by
  have hred : ((processEvent s tc ⟨EV_ABS, EVENT_TYPE_PROXIMITY, v, ts, tu⟩).1 4).x =
      (if (v : ℚ) * CONVERT_P ≤ PROXIMITY_THRESHOLD_CM then 0
       else PROXIMITY_THRESHOLD_CM) := by
    dsimp only [processEvent, EV_ABS, EVENT_TYPE_PROXIMITY]
    simp [setS]
  refine ⟨fun h => by rw [hred, if_pos h], fun h => by rw [hred, if_neg h], ?_, rfl⟩
  by_cases h : (v : ℚ) * CONVERT_P ≤ PROXIMITY_THRESHOLD_CM
  · left
    rw [hred, if_pos h]
  · right
    rw [hred, if_neg h]

/-- C7 (witness): the boundary raw values 30 and 31 (scaled 6.0 and 6.2). -/
theorem c7_proximity_quantized_witness :
    (((30 : ℤ) : ℚ) * CONVERT_P ≤ PROXIMITY_THRESHOLD_CM) ∧
    ((processEvent data__data_open.sensors 0 evProx30).1 4).x = 0 ∧
    ¬(((31 : ℤ) : ℚ) * CONVERT_P ≤ PROXIMITY_THRESHOLD_CM) ∧
    ((processEvent data__data_open.sensors 0 evProx31).1 4).x = PROXIMITY_THRESHOLD_CM :=
  ⟨by norm_num [CONVERT_P, PROXIMITY_THRESHOLD_CM],
   (c7_proximity_quantized data__data_open.sensors 0 30 0 0).1
     (by norm_num [CONVERT_P, PROXIMITY_THRESHOLD_CM]),
   by norm_num [CONVERT_P, PROXIMITY_THRESHOLD_CM],
   (c7_proximity_quantized data__data_open.sensors 0 31 0 0).2.1
     (by norm_num [CONVERT_P, PROXIMITY_THRESHOLD_CM])⟩

/-- C9: an orientation-status event updates only the orientation status
byte (the raw value masked to its low 15 bits, then truncated to 8 bits),
leaves every other field of every sample and the touched accumulator
unchanged; an epoch containing only status events followed by a boundary
leaves the touched accumulator empty, so the boundary branch returns
nothing and the read loop simply continues with the following events. -/
theorem c9_orient_status_frame (s : Fin 6 → Sample) (tc : ℕ) (v ts tu : ℤ)
    (st : DataState) (evs rest : List InputEvent) (b : InputEvent)
    (hst : ∀ e ∈ evs, e.type = EV_ABS ∧
      (e.code = EVENT_TYPE_ORIENT_STATUS ∨ e.code = EVENT_TYPE_ACCEL_STATUS))
    (hp : st.pending = 0) (hb : b.type = EV_SYN) (hbc : ¬(b.code = SYN_CONFIG)) :
    processEvent s tc ⟨EV_ABS, EVENT_TYPE_ORIENT_STATUS, v, ts, tu⟩ =
      (setS s 2 { s 2 with status := ((v.emod 32768).toNat) % 256 }, tc) ∧
    (runEvents st.sensors 0 evs).2 = 0 ∧
    data__poll st (evs ++ b :: rest) = pollLoop (runEvents st.sensors 0 evs).1 0 rest := by
  have hz : ∀ e ∈ evs, evWrite e = none := by
    intro e he
    obtain ⟨ht, hc⟩ := hst e he
    obtain ⟨t, c, vv, t1, t2⟩ := e
    dsimp at ht
    subst ht
    rcases hc with hc | hc <;> (dsimp at hc; subst hc; rfl)
  have htouched : (runEvents st.sensors 0 evs).2 = 0 :=
    runEvents_touched_none evs hz st.sensors 0
  refine ⟨rfl, htouched, ?_⟩
  have hnosyn : ∀ e ∈ evs, e.type ≠ EV_SYN := by
    intro e he
    rw [(hst e he).1]
    decide
  rw [data__poll_pending_zero st _ hp, pollLoop_append evs (b :: rest) hnosyn st.sensors 0,
    htouched, pollLoop_boundary_skip _ b rest hb hbc]

/-- C9 (witness): a single status event with value 9 followed by a
boundary: the orientation status byte becomes 9, nothing is touched, and
the boundary returns nothing. -/
theorem c9_orient_status_frame_witness :
    (∀ e ∈ [evOrientStatus9], e.type = EV_ABS ∧
      (e.code = EVENT_TYPE_ORIENT_STATUS ∨ e.code = EVENT_TYPE_ACCEL_STATUS)) ∧
    data__data_open.pending = 0 ∧
    evBoundary.type = EV_SYN ∧
    ¬(evBoundary.code = SYN_CONFIG) ∧
    ((runEvents data__data_open.sensors 0 [evOrientStatus9]).2 = 0 ∧
      data__poll data__data_open ([evOrientStatus9] ++ evBoundary :: []) =
        pollLoop (runEvents data__data_open.sensors 0 [evOrientStatus9]).1 0 []) :=
  ⟨by decide, rfl, rfl, by decide,
    (c9_orient_status_frame data__data_open.sensors 0 9 0 0 data__data_open
        [evOrientStatus9] [] evBoundary (by decide) rfl rfl (by decide)).2⟩

/-- C10: data__data_open produces a state with no pending samples and with
every sample zeroed except for the accuracy status, which is set to
SENSOR_STATUS_ACCURACY_HIGH; since pendingSensors is empty, the first poll
after opening goes to the raw-event read loop instead of returning any
pre-open sample. -/
theorem c10_data_open_fresh :
    data__data_open.pending = 0 ∧
    (∀ i : Fin 6, data__data_open.sensors i =
      { sensor := 0, x := 0, y := 0, z := 0,
        status := SENSOR_STATUS_ACCURACY_HIGH, time := 0 }) ∧
    (∀ evs : List InputEvent,
      data__poll data__data_open evs = pollLoop data__data_open.sensors 0 evs) :=
  ⟨rfl, fun _ => rfl, fun evs => data__poll_pending_zero _ evs rfl⟩

/-- C8 (witness): enabling Acceleration twice from a fresh context. -/
theorem c8_set_active_idempotent_witness :
    (0 : ℕ) < 6 ∧ ctrl0.active_sensors < 64 ∧
    (control__activate oracleAllOk ctrl0 ((0 : ℕ) : ℤ) true).ret = 0 ∧
    ((control__activate oracleAllOk
        (control__activate oracleAllOk ctrl0 ((0 : ℕ) : ℤ) true).state
        ((0 : ℕ) : ℤ) true).ret = 0 ∧
      (control__activate oracleAllOk
        (control__activate oracleAllOk ctrl0 ((0 : ℕ) : ℤ) true).state
        ((0 : ℕ) : ℤ) true).trace = []) :=
  ⟨by decide, by decide, by decide,
    ⟨(c8_set_active_idempotent oracleAllOk oracleAllOk ctrl0 0 (by decide) (by decide)
        (by decide)).1,
     (c8_set_active_idempotent oracleAllOk oracleAllOk ctrl0 0 (by decide) (by decide)
        (by decide)).2.1⟩⟩

end StingraySensors
